import Mathlib

/-!
Verification of the ORCA server-metrics recorder (`orca/server_metrics.go`).

The Go code has two layers:

* `ServerMetrics`: a value with four `float64` scalars (sentinel `-1`
  meaning "unset") and three `map[string]float64` fields, together with
  the operations `merge`, `mergeMap`, `toLoadReportProto`, `copyMap`.
* `serverMetricsRecorder`: a mutex-guarded mutable `*ServerMetrics` with
  per-field setters/deleters and a deep-copy snapshot method
  `ServerMetrics()`.

Floats are modelled as rationals (no claim depends on rounding, NaN or
infinities; the only float operations in the source are assignment and
comparison with the literal `-1`).  A Go `map[string]float64` is modelled
by its lookup function `String → Option ℚ`: insertion, deletion and
range-iteration order are irrelevant to every operation in the source
(`mergeMap` and `copyMap` are order-independent).

The snapshot-independence claim is about aliasing of map objects, so the
recorder layer is modelled with an explicit heap of map objects addressed
by `Nat` identities: a `ServerMetricsRef` holds scalar fields by value and
map fields as heap identities, mirroring Go's value scalars and reference
maps inside a `*ServerMetrics`.
-/

/-- A Go `map[string]float64`, modelled by its lookup function
(`none` = key absent). -/
def GoMap : Type := String → Option ℚ

/-- The empty map, `make(map[string]float64)`. -/
def GoMap.empty : GoMap := fun _ => none

/-- `a[k] = v`: insert-or-overwrite key `k` with value `v`. -/
def GoMap.insert (a : GoMap) (k : String) (v : ℚ) : GoMap :=
  fun x => if x = k then some v else a x

/-- `delete(a, k)`: remove key `k`. -/
def GoMap.erase (a : GoMap) (k : String) : GoMap :=
  fun x => if x = k then none else a x

/-- `ServerMetrics` struct (value contents): four scalars with unset
sentinel `-1` and three maps (source lines 29-40). -/
structure ServerMetrics where
  CPUUtilization : ℚ
  MemUtilization : ℚ
  QPS : ℚ
  EPS : ℚ
  Utilization : GoMap
  RequestCost : GoMap
  NamedMetrics : GoMap

/-- `mergeMap(a, b)`: `for k, v := range b { a[k] = v }`.  The resulting
contents of `a`: every key of `b` maps to `b`'s value, all other keys keep
`a`'s value (source lines 83-87). -/
def mergeMap (a b : GoMap) : GoMap :=
  fun k =>
    match b k with
    | some v => some v
    | none => a k

/-- `(sm *ServerMetrics) merge(o)`: overwrite each scalar of `sm` with
`o`'s when `o`'s is not `-1`, and merge each of the three maps of `o` into
`sm`'s (source lines 65-81).  The in-place update is modelled by returning
the new contents of `sm`. -/
def ServerMetrics.merge (sm o : ServerMetrics) : ServerMetrics where
  CPUUtilization := if o.CPUUtilization ≠ -1 then o.CPUUtilization else sm.CPUUtilization
  MemUtilization := if o.MemUtilization ≠ -1 then o.MemUtilization else sm.MemUtilization
  QPS := if o.QPS ≠ -1 then o.QPS else sm.QPS
  EPS := if o.EPS ≠ -1 then o.EPS else sm.EPS
  Utilization := mergeMap sm.Utilization o.Utilization
  RequestCost := mergeMap sm.RequestCost o.RequestCost
  NamedMetrics := mergeMap sm.NamedMetrics o.NamedMetrics

/-- The `v3orcapb.OrcaLoadReport` proto message as populated by this
package.  The message type itself is external to the repository
(`github.com/cncf/xds`); its proto3 scalar fields start out unset and
`toLoadReportProto` assigns them only conditionally, so an unassigned
scalar slot is modelled as `none` ("field omitted"). -/
structure OrcaLoadReport where
  cpuUtilization : Option ℚ
  memUtilization : Option ℚ
  rpsFractional : Option ℚ
  eps : Option ℚ
  utilization : GoMap
  requestCost : GoMap
  namedMetrics : GoMap

/-- `(sm *ServerMetrics) toLoadReportProto()`: build the report with the
three maps, then assign each scalar field only when it is not the `-1`
sentinel (source lines 43-62). -/
def toLoadReportProto (sm : ServerMetrics) : OrcaLoadReport where
  cpuUtilization := if sm.CPUUtilization ≠ -1 then some sm.CPUUtilization else none
  memUtilization := if sm.MemUtilization ≠ -1 then some sm.MemUtilization else none
  rpsFractional := if sm.QPS ≠ -1 then some sm.QPS else none
  eps := if sm.EPS ≠ -1 then some sm.EPS else none
  utilization := sm.Utilization
  requestCost := sm.RequestCost
  namedMetrics := sm.NamedMetrics

/-- The "unset" default `ServerMetrics` value: all scalars `-1`, all maps
empty (as built by `newServerMetricsRecorder`, source lines 137-149). -/
def unsetServerMetrics : ServerMetrics where
  CPUUtilization := -1
  MemUtilization := -1
  QPS := -1
  EPS := -1
  Utilization := GoMap.empty
  RequestCost := GoMap.empty
  NamedMetrics := GoMap.empty

lemma mergeMap_some (a b : GoMap) (k : String) (v : ℚ) (h : b k = some v) :
    mergeMap a b k = some v := by
  simp [mergeMap, h]

lemma mergeMap_none (a b : GoMap) (k : String) (h : b k = none) :
    mergeMap a b k = a k := by
  simp [mergeMap, h]

lemma mergeMap_empty (a : GoMap) : mergeMap a GoMap.empty = a :=
  funext fun _ => rfl

lemma mergeMap_idem (a b : GoMap) : mergeMap (mergeMap a b) b = mergeMap a b := by
  funext k
  simp only [mergeMap]
  rcases h : b k with _ | v <;> simp [h]

/-- One scalar slot of the load report: present with value `v` iff the
stored scalar is `v` and not the sentinel; omitted at the sentinel. -/
lemma sentinel_slot (x v : ℚ) :
    ((if x ≠ -1 then some x else none) = some v ↔ x = v ∧ v ≠ -1) ∧
    (x = -1 → (if x ≠ -1 then some x else none) = none) := by
  constructor
  · constructor
    · intro hv
      by_cases hx : x = -1
      · simp [hx] at hv
      · simp [hx] at hv
        exact ⟨hv, hv ▸ hx⟩
    · rintro ⟨rfl, hv⟩
      simp [hv]
  · intro hx
    simp [hx]

/-- C1: `merge(self, other)` overwrites each scalar with `other`'s value
exactly when that value is not `-1` and leaves it unchanged otherwise;
for each of the three maps every key present in `other` is
inserted/overwritten with `other`'s value and keys present only in `self`
are untouched. -/
theorem C1_merge_semantics (sm o : ServerMetrics) :
    ((o.CPUUtilization ≠ -1 → (sm.merge o).CPUUtilization = o.CPUUtilization) ∧
      (o.CPUUtilization = -1 → (sm.merge o).CPUUtilization = sm.CPUUtilization)) ∧
    ((o.MemUtilization ≠ -1 → (sm.merge o).MemUtilization = o.MemUtilization) ∧
      (o.MemUtilization = -1 → (sm.merge o).MemUtilization = sm.MemUtilization)) ∧
    ((o.QPS ≠ -1 → (sm.merge o).QPS = o.QPS) ∧
      (o.QPS = -1 → (sm.merge o).QPS = sm.QPS)) ∧
    ((o.EPS ≠ -1 → (sm.merge o).EPS = o.EPS) ∧
      (o.EPS = -1 → (sm.merge o).EPS = sm.EPS)) ∧
    (∀ k v, o.Utilization k = some v → (sm.merge o).Utilization k = some v) ∧
    (∀ k, o.Utilization k = none → (sm.merge o).Utilization k = sm.Utilization k) ∧
    (∀ k v, o.RequestCost k = some v → (sm.merge o).RequestCost k = some v) ∧
    (∀ k, o.RequestCost k = none → (sm.merge o).RequestCost k = sm.RequestCost k) ∧
    (∀ k v, o.NamedMetrics k = some v → (sm.merge o).NamedMetrics k = some v) ∧
    (∀ k, o.NamedMetrics k = none → (sm.merge o).NamedMetrics k = sm.NamedMetrics k) := by
  refine ⟨⟨fun hcpu => ?_, fun hcpu0 => ?_⟩, ⟨fun hmem => ?_, fun hmem0 => ?_⟩,
    ⟨fun hqps => ?_, fun hqps0 => ?_⟩, ⟨fun heps => ?_, fun heps0 => ?_⟩,
    fun k v hk => mergeMap_some _ _ _ _ hk, fun k hk => mergeMap_none _ _ _ hk,
    fun k v hk => mergeMap_some _ _ _ _ hk, fun k hk => mergeMap_none _ _ _ hk,
    fun k v hk => mergeMap_some _ _ _ _ hk, fun k hk => mergeMap_none _ _ _ hk⟩ <;>
  simp [ServerMetrics.merge, *]

/-- Witness for C1, instantiating the shape of the spec's merge example
(with integer-valued rationals): A = (cpu = 3, qps = -1, utilization
a↦1) merged with B = (cpu = -1, qps = 10, utilization a↦2, b↦3) keeps
cpu = 3, takes qps = 10, and yields utilization a↦2, b↦3. -/
theorem C1_merge_semantics_witness :
    (ServerMetrics.merge
        ⟨3, -1, -1, -1, GoMap.insert GoMap.empty "a" 1, GoMap.empty, GoMap.empty⟩
        ⟨-1, -1, 10, -1, GoMap.insert (GoMap.insert GoMap.empty "a" 2) "b" 3,
          GoMap.empty, GoMap.empty⟩).CPUUtilization = 3 ∧
    (ServerMetrics.merge
        ⟨3, -1, -1, -1, GoMap.insert GoMap.empty "a" 1, GoMap.empty, GoMap.empty⟩
        ⟨-1, -1, 10, -1, GoMap.insert (GoMap.insert GoMap.empty "a" 2) "b" 3,
          GoMap.empty, GoMap.empty⟩).Utilization "a" = some 2 ∧
    (ServerMetrics.merge
        ⟨3, -1, -1, -1, GoMap.insert GoMap.empty "a" 1, GoMap.empty, GoMap.empty⟩
        ⟨-1, -1, 10, -1, GoMap.insert (GoMap.insert GoMap.empty "a" 2) "b" 3,
          GoMap.empty, GoMap.empty⟩).Utilization "b" = some 3 := by
  have h := C1_merge_semantics
    ⟨3, -1, -1, -1, GoMap.insert GoMap.empty "a" 1, GoMap.empty, GoMap.empty⟩
    ⟨-1, -1, 10, -1, GoMap.insert (GoMap.insert GoMap.empty "a" 2) "b" 3,
      GoMap.empty, GoMap.empty⟩
  exact ⟨h.1.2 rfl,
    h.2.2.2.2.1 "a" 2 (by simp [GoMap.insert, GoMap.empty]),
    h.2.2.2.2.1 "b" 3 (by simp [GoMap.insert, GoMap.empty])⟩

/-- C2: the load report contains a scalar field with value `v` exactly
when the corresponding `ServerMetrics` scalar is `v` and `v ≠ -1`; when
the scalar is `-1` the field is omitted (`none`). -/
theorem C2_load_report_scalars (sm : ServerMetrics) (v : ℚ) :
    (((toLoadReportProto sm).cpuUtilization = some v ↔ sm.CPUUtilization = v ∧ v ≠ -1) ∧
      (sm.CPUUtilization = -1 → (toLoadReportProto sm).cpuUtilization = none)) ∧
    (((toLoadReportProto sm).memUtilization = some v ↔ sm.MemUtilization = v ∧ v ≠ -1) ∧
      (sm.MemUtilization = -1 → (toLoadReportProto sm).memUtilization = none)) ∧
    (((toLoadReportProto sm).rpsFractional = some v ↔ sm.QPS = v ∧ v ≠ -1) ∧
      (sm.QPS = -1 → (toLoadReportProto sm).rpsFractional = none)) ∧
    (((toLoadReportProto sm).eps = some v ↔ sm.EPS = v ∧ v ≠ -1) ∧
      (sm.EPS = -1 → (toLoadReportProto sm).eps = none)) :=
  ⟨sentinel_slot sm.CPUUtilization v, sentinel_slot sm.MemUtilization v,
    sentinel_slot sm.QPS v, sentinel_slot sm.EPS v⟩

/-- Witness for C2 at a concrete input: cpu = 3 appears as `some 3`, and
qps = -1 is omitted. -/
theorem C2_load_report_scalars_witness :
    (toLoadReportProto ⟨3, -1, -1, 0, GoMap.empty, GoMap.empty, GoMap.empty⟩).cpuUtilization
        = some 3 ∧
    (toLoadReportProto ⟨3, -1, -1, 0, GoMap.empty, GoMap.empty, GoMap.empty⟩).rpsFractional
        = none := by
  have h := C2_load_report_scalars ⟨3, -1, -1, 0, GoMap.empty, GoMap.empty, GoMap.empty⟩ 3
  exact ⟨h.1.1.mpr ⟨rfl, by decide⟩, h.2.2.1.2 rfl⟩

/-- C9: the "unset" default value is a right identity of `merge`, and
merging a fixed right operand twice equals merging it once. -/
theorem C9_merge_identity_idempotent (sm o : ServerMetrics) :
    sm.merge unsetServerMetrics = sm ∧ (sm.merge o).merge o = sm.merge o := by
  constructor
  · cases sm with
    | mk c m q e u rc nm =>
      simp only [ServerMetrics.merge, unsetServerMetrics, mergeMap_empty,
        ServerMetrics.mk.injEq]
      refine ⟨?_, ?_, ?_, ?_, trivial, trivial, trivial⟩ <;> simp
  · simp only [ServerMetrics.merge, mergeMap_idem, ServerMetrics.mk.injEq]
    refine ⟨?_, ?_, ?_, ?_, trivial, trivial, trivial⟩
    · by_cases h : o.CPUUtilization = -1 <;> simp [h]
    · by_cases h : o.MemUtilization = -1 <;> simp [h]
    · by_cases h : o.QPS = -1 <;> simp [h]
    · by_cases h : o.EPS = -1 <;> simp [h]

/-- C4 counterexample: the claim says `request_cost` does not appear in
the serialized load report, but `toLoadReportProto` (source line 46)
copies `sm.RequestCost` into the report: a metrics value with
request_cost a↦1 produces a report whose requestCost field holds a↦1 and
is not the empty map. -/
theorem C4_counterexample :
    (toLoadReportProto
        ⟨-1, -1, -1, -1, GoMap.empty, GoMap.insert GoMap.empty "a" 1,
          GoMap.empty⟩).requestCost "a" = some 1 ∧
    (toLoadReportProto
        ⟨-1, -1, -1, -1, GoMap.empty, GoMap.insert GoMap.empty "a" 1,
          GoMap.empty⟩).requestCost ≠ GoMap.empty := by
  constructor
  · rfl
  · intro hcontra
    have h := congrFun hcontra "a"
    simp [toLoadReportProto, GoMap.insert, GoMap.empty] at h

/-- C4 amended: `toLoadReportProto` includes all three maps in the load
report — `request_cost` as well as `utilization` and `named_metrics` —
each passed through unchanged; the exclusion of request_cost from
out-of-band reports is documentation convention, not enforced by this
serialization. -/
theorem C4_amended_all_maps_included (sm : ServerMetrics) :
    (toLoadReportProto sm).utilization = sm.Utilization ∧
    (toLoadReportProto sm).requestCost = sm.RequestCost ∧
    (toLoadReportProto sm).namedMetrics = sm.NamedMetrics :=
  ⟨rfl, rfl, rfl⟩

/-- A heap of map objects addressed by `Nat` identities, modelling Go map
references.  `next` is the next unused identity. -/
structure Heap where
  mem : Nat → GoMap
  next : Nat

/-- Allocate a fresh map object with contents `m` (`make` + population,
as in `copyMap`, source lines 166-172): returns its identity and the
extended heap. -/
def Heap.alloc (h : Heap) (m : GoMap) : Nat × Heap :=
  (h.next, { mem := fun i => if i = h.next then m else h.mem i, next := h.next + 1 })

/-- Mutate the map object `i` in place with `f` (an insertion or a
deletion on that one object). -/
def Heap.modify (h : Heap) (i : Nat) (f : GoMap → GoMap) : Heap :=
  { mem := fun j => if j = i then f (h.mem i) else h.mem j, next := h.next }

/-- A `*ServerMetrics` as handled by the recorder: scalar fields held by
value, map fields held as references (heap identities). -/
structure ServerMetricsRef where
  CPUUtilization : ℚ
  MemUtilization : ℚ
  QPS : ℚ
  EPS : ℚ
  UtilizationID : Nat
  RequestCostID : Nat
  NamedMetricsID : Nat

/-- The value contents of a `ServerMetricsRef` under a heap. -/
def ServerMetricsRef.val (sm : ServerMetricsRef) (h : Heap) : ServerMetrics where
  CPUUtilization := sm.CPUUtilization
  MemUtilization := sm.MemUtilization
  QPS := sm.QPS
  EPS := sm.EPS
  Utilization := h.mem sm.UtilizationID
  RequestCost := h.mem sm.RequestCostID
  NamedMetrics := h.mem sm.NamedMetricsID

/-- `serverMetricsRecorder` (source lines 125-128): the guarded state,
together with the heap of map objects.  The mutex itself is a runtime
artifact with no value-level content; each method below is one
atomically-executed critical section. -/
structure serverMetricsRecorder where
  heap : Heap
  state : ServerMetricsRef

/-- `newServerMetricsRecorder()` (source lines 137-149): all scalars
`-1`, three freshly allocated empty maps. -/
def newServerMetricsRecorder : serverMetricsRecorder :=
  let h0 : Heap := { mem := fun _ => GoMap.empty, next := 0 }
  let a1 := h0.alloc GoMap.empty
  let a2 := a1.2.alloc GoMap.empty
  let a3 := a2.2.alloc GoMap.empty
  { heap := a3.2,
    state :=
      { CPUUtilization := -1, MemUtilization := -1, QPS := -1, EPS := -1,
        UtilizationID := a1.1, RequestCostID := a2.1, NamedMetricsID := a3.1 } }

/-- `ServerMetrics()` snapshot method (source lines 152-164): returns a
fresh `*ServerMetrics` with scalars copied by value and each map
deep-copied into a freshly allocated object (`copyMap`). -/
def serverMetricsRecorder.ServerMetrics (s : serverMetricsRecorder) :
    ServerMetricsRef × serverMetricsRecorder :=
  let h := s.heap
  let a1 := h.alloc (h.mem s.state.UtilizationID)
  let a2 := a1.2.alloc (h.mem s.state.RequestCostID)
  let a3 := a2.2.alloc (h.mem s.state.NamedMetricsID)
  (⟨s.state.CPUUtilization, s.state.MemUtilization, s.state.QPS, s.state.EPS,
      a1.1, a2.1, a3.1⟩,
    { s with heap := a3.2 })

/-- `SetCPUUtilization` (source lines 175-179). -/
def serverMetricsRecorder.SetCPUUtilization (s : serverMetricsRecorder) (val : ℚ) :
    serverMetricsRecorder :=
  { s with state := { s.state with CPUUtilization := val } }

/-- `DeleteCPUUtilization` (source lines 183-185): defined as setting `-1`. -/
def serverMetricsRecorder.DeleteCPUUtilization (s : serverMetricsRecorder) :
    serverMetricsRecorder :=
  s.SetCPUUtilization (-1)

/-- `SetMemoryUtilization` (source lines 188-192). -/
def serverMetricsRecorder.SetMemoryUtilization (s : serverMetricsRecorder) (val : ℚ) :
    serverMetricsRecorder :=
  { s with state := { s.state with MemUtilization := val } }

/-- `DeleteMemoryUtilization` (source lines 196-198). -/
def serverMetricsRecorder.DeleteMemoryUtilization (s : serverMetricsRecorder) :
    serverMetricsRecorder :=
  s.SetMemoryUtilization (-1)

/-- `SetQPS` (source lines 201-205). -/
def serverMetricsRecorder.SetQPS (s : serverMetricsRecorder) (val : ℚ) :
    serverMetricsRecorder :=
  { s with state := { s.state with QPS := val } }

/-- `DeleteQPS` (source lines 208-210). -/
def serverMetricsRecorder.DeleteQPS (s : serverMetricsRecorder) : serverMetricsRecorder :=
  s.SetQPS (-1)

/-- `SetEPS` (source lines 213-217). -/
def serverMetricsRecorder.SetEPS (s : serverMetricsRecorder) (val : ℚ) :
    serverMetricsRecorder :=
  { s with state := { s.state with EPS := val } }

/-- `DeleteEPS` (source lines 220-222). -/
def serverMetricsRecorder.DeleteEPS (s : serverMetricsRecorder) : serverMetricsRecorder :=
  s.SetEPS (-1)

/-- `SetNamedUtilization` (source lines 226-230):
`s.state.Utilization[name] = val`. -/
def serverMetricsRecorder.SetNamedUtilization (s : serverMetricsRecorder)
    (name : String) (val : ℚ) : serverMetricsRecorder :=
  { s with heap := s.heap.modify s.state.UtilizationID (fun m => m.insert name val) }

/-- `DeleteNamedUtilization` (source lines 234-238):
`delete(s.state.Utilization, name)`. -/
def serverMetricsRecorder.DeleteNamedUtilization (s : serverMetricsRecorder)
    (name : String) : serverMetricsRecorder :=
  { s with heap := s.heap.modify s.state.UtilizationID (fun m => m.erase name) }

/-- `SetRequestCost` (source lines 242-246). -/
def serverMetricsRecorder.SetRequestCost (s : serverMetricsRecorder)
    (name : String) (val : ℚ) : serverMetricsRecorder :=
  { s with heap := s.heap.modify s.state.RequestCostID (fun m => m.insert name val) }

/-- `DeleteRequestCost` (source lines 250-254). -/
def serverMetricsRecorder.DeleteRequestCost (s : serverMetricsRecorder)
    (name : String) : serverMetricsRecorder :=
  { s with heap := s.heap.modify s.state.RequestCostID (fun m => m.erase name) }

/-- `SetNamedMetric` (source lines 258-262). -/
def serverMetricsRecorder.SetNamedMetric (s : serverMetricsRecorder)
    (name : String) (val : ℚ) : serverMetricsRecorder :=
  { s with heap := s.heap.modify s.state.NamedMetricsID (fun m => m.insert name val) }

/-- `DeleteNamedMetric` (source lines 266-269). -/
def serverMetricsRecorder.DeleteNamedMetric (s : serverMetricsRecorder)
    (name : String) : serverMetricsRecorder :=
  { s with heap := s.heap.modify s.state.NamedMetricsID (fun m => m.erase name) }

/-- The value contents of the recorder's internal state. -/
def recorderVal (s : serverMetricsRecorder) : ServerMetrics :=
  s.state.val s.heap

/-- The value contents of a freshly taken snapshot. -/
def snapshotVal (s : serverMetricsRecorder) : ServerMetrics :=
  (serverMetricsRecorder.ServerMetrics s).1.val (serverMetricsRecorder.ServerMetrics s).2.heap

/-- The recorder's three map identities are allocated (below `next`). -/
def WF (s : serverMetricsRecorder) : Prop :=
  s.state.UtilizationID < s.heap.next ∧
    s.state.RequestCostID < s.heap.next ∧
    s.state.NamedMetricsID < s.heap.next

lemma snapshotVal_eq (s : serverMetricsRecorder) : snapshotVal s = recorderVal s := by
  simp only [snapshotVal, recorderVal, serverMetricsRecorder.ServerMetrics,
    ServerMetricsRef.val, Heap.alloc, ServerMetrics.mk.injEq]
  refine ⟨trivial, trivial, trivial, trivial, ?_, ?_, ?_⟩ <;>
    simp only [if_true] <;>
    first
      | rw [if_neg (by omega), if_neg (by omega)]
      | rw [if_neg (by omega)]

lemma GoMap.erase_of_none (m : GoMap) (k : String) (h : m k = none) : m.erase k = m := by
  funext x
  by_cases hx : x = k
  · subst hx
    simp [GoMap.erase, h]
  · simp [GoMap.erase, hx]

lemma Heap.modify_noop (h : Heap) (i : Nat) (f : GoMap → GoMap)
    (hf : f (h.mem i) = h.mem i) : h.modify i f = h := by
  cases h with
  | mk mem next =>
    simp only [Heap.modify, Heap.mk.injEq, and_true]
    funext j
    by_cases hj : j = i
    · subst hj
      simpa using hf
    · simp [hj]

/-- C6: a new recorder holds all four scalars at `-1` and three empty
maps, and an immediately taken snapshot equals the "unset" default
`ServerMetrics` value. -/
theorem C6_new_recorder_unset :
    recorderVal newServerMetricsRecorder = unsetServerMetrics ∧
    snapshotVal newServerMetricsRecorder = unsetServerMetrics := by
  constructor
  · rfl
  · rw [snapshotVal_eq]
    rfl

/-- C7: each scalar delete operation is definitionally the corresponding
setter applied to `-1`; after it, a snapshot shows the scalar `-1` and
the serialized load report omits the corresponding field. -/
theorem C7_delete_is_set_sentinel (r : serverMetricsRecorder) :
    (r.DeleteCPUUtilization = r.SetCPUUtilization (-1) ∧
      (snapshotVal r.DeleteCPUUtilization).CPUUtilization = -1 ∧
      (toLoadReportProto (snapshotVal r.DeleteCPUUtilization)).cpuUtilization = none) ∧
    (r.DeleteMemoryUtilization = r.SetMemoryUtilization (-1) ∧
      (snapshotVal r.DeleteMemoryUtilization).MemUtilization = -1 ∧
      (toLoadReportProto (snapshotVal r.DeleteMemoryUtilization)).memUtilization = none) ∧
    (r.DeleteQPS = r.SetQPS (-1) ∧
      (snapshotVal r.DeleteQPS).QPS = -1 ∧
      (toLoadReportProto (snapshotVal r.DeleteQPS)).rpsFractional = none) ∧
    (r.DeleteEPS = r.SetEPS (-1) ∧
      (snapshotVal r.DeleteEPS).EPS = -1 ∧
      (toLoadReportProto (snapshotVal r.DeleteEPS)).eps = none) := by
  refine ⟨⟨rfl, ?_, ?_⟩, ⟨rfl, ?_, ?_⟩, ⟨rfl, ?_, ?_⟩, ⟨rfl, ?_, ?_⟩⟩ <;>
    simp [snapshotVal_eq, recorderVal, ServerMetricsRef.val, toLoadReportProto,
      serverMetricsRecorder.DeleteCPUUtilization, serverMetricsRecorder.SetCPUUtilization,
      serverMetricsRecorder.DeleteMemoryUtilization, serverMetricsRecorder.SetMemoryUtilization,
      serverMetricsRecorder.DeleteQPS, serverMetricsRecorder.SetQPS,
      serverMetricsRecorder.DeleteEPS, serverMetricsRecorder.SetEPS]

/-- C8: setting a named utilization then taking a snapshot shows the
entry; deleting it then taking a snapshot shows the key absent. -/
theorem C8_named_utilization_roundtrip (r : serverMetricsRecorder)
    (name : String) (v : ℚ) :
    (snapshotVal (r.SetNamedUtilization name v)).Utilization name = some v ∧
    (snapshotVal (r.DeleteNamedUtilization name)).Utilization name = none := by
  rw [snapshotVal_eq, snapshotVal_eq]
  constructor <;>
    simp [recorderVal, ServerMetricsRef.val, serverMetricsRecorder.SetNamedUtilization,
      serverMetricsRecorder.DeleteNamedUtilization, Heap.modify, GoMap.insert, GoMap.erase]

/-- C10: deleting a name absent from the corresponding map leaves the
whole recorder (all scalars, all three map objects, the heap) unchanged,
for each of the three named-map delete operations. -/
theorem C10_delete_absent_noop (r : serverMetricsRecorder) (name : String) :
    (r.heap.mem r.state.UtilizationID name = none →
      r.DeleteNamedUtilization name = r) ∧
    (r.heap.mem r.state.RequestCostID name = none →
      r.DeleteRequestCost name = r) ∧
    (r.heap.mem r.state.NamedMetricsID name = none →
      r.DeleteNamedMetric name = r) := by
  refine ⟨fun h => ?_, fun h => ?_, fun h => ?_⟩ <;>
  · show { r with heap := _ } = r
    rw [Heap.modify_noop _ _ _ (GoMap.erase_of_none _ _ h)]

/-- Witness for C10: on a fresh recorder no map contains "x", and all
three deletes of "x" are no-ops. -/
theorem C10_delete_absent_noop_witness :
    newServerMetricsRecorder.DeleteNamedUtilization "x" = newServerMetricsRecorder ∧
    newServerMetricsRecorder.DeleteRequestCost "x" = newServerMetricsRecorder ∧
    newServerMetricsRecorder.DeleteNamedMetric "x" = newServerMetricsRecorder :=
  ⟨(C10_delete_absent_noop newServerMetricsRecorder "x").1 rfl,
    (C10_delete_absent_noop newServerMetricsRecorder "x").2.1 rfl,
    (C10_delete_absent_noop newServerMetricsRecorder "x").2.2 rfl⟩

/-- One recorder call (one critical section under the single mutex). -/
inductive Op where
  | setCPUUtilization (v : ℚ)
  | deleteCPUUtilization
  | setMemoryUtilization (v : ℚ)
  | deleteMemoryUtilization
  | setQPS (v : ℚ)
  | deleteQPS
  | setEPS (v : ℚ)
  | deleteEPS
  | setNamedUtilization (name : String) (v : ℚ)
  | deleteNamedUtilization (name : String)
  | setRequestCost (name : String) (v : ℚ)
  | deleteRequestCost (name : String)
  | setNamedMetric (name : String) (v : ℚ)
  | deleteNamedMetric (name : String)
  | takeSnapshot

/-- Apply one recorder call to the recorder. -/
def applyOp (op : Op) (s : serverMetricsRecorder) : serverMetricsRecorder :=
  match op with
  | .setCPUUtilization v => s.SetCPUUtilization v
  | .deleteCPUUtilization => s.DeleteCPUUtilization
  | .setMemoryUtilization v => s.SetMemoryUtilization v
  | .deleteMemoryUtilization => s.DeleteMemoryUtilization
  | .setQPS v => s.SetQPS v
  | .deleteQPS => s.DeleteQPS
  | .setEPS v => s.SetEPS v
  | .deleteEPS => s.DeleteEPS
  | .setNamedUtilization name v => s.SetNamedUtilization name v
  | .deleteNamedUtilization name => s.DeleteNamedUtilization name
  | .setRequestCost name v => s.SetRequestCost name v
  | .deleteRequestCost name => s.DeleteRequestCost name
  | .setNamedMetric name v => s.SetNamedMetric name v
  | .deleteNamedMetric name => s.DeleteNamedMetric name
  | .takeSnapshot => (serverMetricsRecorder.ServerMetrics s).2

/-- Apply a sequence of recorder calls, first to last. -/
def applyOps (l : List Op) (s : serverMetricsRecorder) : serverMetricsRecorder :=
  l.foldl (fun s op => applyOp op s) s

lemma applyOp_ids (op : Op) (s : serverMetricsRecorder) :
    (applyOp op s).state.UtilizationID = s.state.UtilizationID ∧
    (applyOp op s).state.RequestCostID = s.state.RequestCostID ∧
    (applyOp op s).state.NamedMetricsID = s.state.NamedMetricsID := by
  cases op <;> exact ⟨rfl, rfl, rfl⟩

lemma applyOp_next_le (op : Op) (s : serverMetricsRecorder) :
    s.heap.next ≤ (applyOp op s).heap.next := by
  cases op <;> first | exact Nat.le_refl _ | exact Nat.le_add_right _ 3

lemma applyOp_mem_lo (op : Op) (s : serverMetricsRecorder) (i : Nat)
    (hi : i < s.heap.next)
    (h1 : i ≠ s.state.UtilizationID) (h2 : i ≠ s.state.RequestCostID)
    (h3 : i ≠ s.state.NamedMetricsID) :
    (applyOp op s).heap.mem i = s.heap.mem i := by
  cases op <;>
    first
      | rfl
      | exact if_neg h1
      | exact if_neg h2
      | exact if_neg h3
      | (refine (if_neg ?_).trans ((if_neg ?_).trans (if_neg ?_)) <;>
          (try simp only [Heap.alloc]) <;> omega)

lemma applyOps_mem_lo (l : List Op) (s : serverMetricsRecorder) (i : Nat)
    (hi : i < s.heap.next)
    (h1 : i ≠ s.state.UtilizationID) (h2 : i ≠ s.state.RequestCostID)
    (h3 : i ≠ s.state.NamedMetricsID) :
    (applyOps l s).heap.mem i = s.heap.mem i := by
  induction l generalizing s with
  | nil => rfl
  | cons op t ih =>
    have hids := applyOp_ids op s
    have hnext := applyOp_next_le op s
    calc (applyOps (op :: t) s).heap.mem i
        = (applyOps t (applyOp op s)).heap.mem i := rfl
      _ = (applyOp op s).heap.mem i := by
          refine ih (applyOp op s) (lt_of_lt_of_le hi hnext) ?_ ?_ ?_
          · rw [hids.1]; exact h1
          · rw [hids.2.1]; exact h2
          · rw [hids.2.2]; exact h3
      _ = s.heap.mem i := applyOp_mem_lo op s i hi h1 h2 h3

lemma snap_fst (r : serverMetricsRecorder) :
    (serverMetricsRecorder.ServerMetrics r).1 =
      ⟨r.state.CPUUtilization, r.state.MemUtilization, r.state.QPS, r.state.EPS,
        r.heap.next, r.heap.next + 1, r.heap.next + 2⟩ := rfl

lemma snap_snd_state (r : serverMetricsRecorder) :
    (serverMetricsRecorder.ServerMetrics r).2.state = r.state := rfl

lemma snap_snd_next (r : serverMetricsRecorder) :
    (serverMetricsRecorder.ServerMetrics r).2.heap.next = r.heap.next + 3 := rfl

lemma recorderVal_modify_ne (s : serverMetricsRecorder) (i : Nat) (f : GoMap → GoMap)
    (h1 : s.state.UtilizationID ≠ i) (h2 : s.state.RequestCostID ≠ i)
    (h3 : s.state.NamedMetricsID ≠ i) :
    recorderVal { s with heap := s.heap.modify i f } = recorderVal s := by
  simp only [recorderVal, ServerMetricsRef.val, Heap.modify, ServerMetrics.mk.injEq]
  refine ⟨trivial, trivial, trivial, trivial, ?_, ?_, ?_⟩ <;>
    first
      | rw [if_neg h1]
      | rw [if_neg h2]
      | rw [if_neg h3]

lemma snap_fresh_ne_state (r : serverMetricsRecorder) (hwf : WF r) (i : Nat)
    (hi : i = r.heap.next ∨ i = r.heap.next + 1 ∨ i = r.heap.next + 2) :
    i ≠ (serverMetricsRecorder.ServerMetrics r).2.state.UtilizationID ∧
    i ≠ (serverMetricsRecorder.ServerMetrics r).2.state.RequestCostID ∧
    i ≠ (serverMetricsRecorder.ServerMetrics r).2.state.NamedMetricsID := by
  obtain ⟨w1, w2, w3⟩ := hwf
  rw [snap_snd_state]
  rcases hi with rfl | rfl | rfl <;> exact ⟨by omega, by omega, by omega⟩

lemma snap_ops_mem (r : serverMetricsRecorder) (hwf : WF r) (l : List Op) (j : Nat)
    (hj : j = r.heap.next ∨ j = r.heap.next + 1 ∨ j = r.heap.next + 2) :
    (applyOps l (serverMetricsRecorder.ServerMetrics r).2).heap.mem j
      = (serverMetricsRecorder.ServerMetrics r).2.heap.mem j := by
  obtain ⟨h1, h2, h3⟩ := snap_fresh_ne_state r hwf j hj
  refine applyOps_mem_lo l _ j ?_ h1 h2 h3
  rw [snap_snd_next]
  rcases hj with rfl | rfl | rfl <;> omega

/-- C3: a snapshot copies the scalars by value and allocates fresh map
objects, distinct from the recorder's own; mutating any of the snapshot's
map objects (any insertion/deletion `f` on it) changes neither the
recorder's contents nor the value of a subsequently taken snapshot; and
any sequence of recorder calls after the snapshot (including further
snapshots) never changes the snapshot's value. -/
theorem C3_snapshot_independence (r : serverMetricsRecorder) (sm : ServerMetricsRef)
    (r2 : serverMetricsRecorder) (hwf : WF r)
    (hsnap : serverMetricsRecorder.ServerMetrics r = (sm, r2)) :
    (sm.CPUUtilization = r.state.CPUUtilization ∧
      sm.MemUtilization = r.state.MemUtilization ∧
      sm.QPS = r.state.QPS ∧ sm.EPS = r.state.EPS) ∧
    (∀ i, (i = sm.UtilizationID ∨ i = sm.RequestCostID ∨ i = sm.NamedMetricsID) →
      i ≠ r2.state.UtilizationID ∧ i ≠ r2.state.RequestCostID ∧
        i ≠ r2.state.NamedMetricsID) ∧
    (∀ i f, (i = sm.UtilizationID ∨ i = sm.RequestCostID ∨ i = sm.NamedMetricsID) →
      recorderVal { r2 with heap := r2.heap.modify i f } = recorderVal r2 ∧
      snapshotVal { r2 with heap := r2.heap.modify i f } = snapshotVal r2) ∧
    (∀ l : List Op, sm.val (applyOps l r2).heap = sm.val r2.heap) := by
  have hsm : sm = (serverMetricsRecorder.ServerMetrics r).1 := by rw [hsnap]
  have hr2 : r2 = (serverMetricsRecorder.ServerMetrics r).2 := by rw [hsnap]
  subst hsm
  subst hr2
  refine ⟨⟨rfl, rfl, rfl, rfl⟩, ?_, ?_, ?_⟩
  · intro i hi
    simp only [snap_fst] at hi
    exact snap_fresh_ne_state r hwf i hi
  · intro i f hi
    simp only [snap_fst] at hi
    obtain ⟨h1, h2, h3⟩ := snap_fresh_ne_state r hwf i hi
    have hrec := recorderVal_modify_ne (serverMetricsRecorder.ServerMetrics r).2 i f
      (Ne.symm h1) (Ne.symm h2) (Ne.symm h3)
    refine ⟨hrec, ?_⟩
    rw [snapshotVal_eq, snapshotVal_eq]
    exact hrec
  · intro l
    simp only [snap_fst, ServerMetricsRef.val]
    rw [snap_ops_mem r hwf l _ (Or.inl rfl),
      snap_ops_mem r hwf l _ (Or.inr (Or.inl rfl)),
      snap_ops_mem r hwf l _ (Or.inr (Or.inr rfl))]

/-- The snapshot of a fresh recorder, used to instantiate C3. -/
def newSnap : ServerMetricsRef × serverMetricsRecorder :=
  serverMetricsRecorder.ServerMetrics newServerMetricsRecorder

/-- Witness for C3: a fresh recorder is well-formed, and setting a named
metric after taking a snapshot leaves the snapshot's value unchanged. -/
theorem C3_snapshot_independence_witness :
    WF newServerMetricsRecorder ∧
    ServerMetricsRef.val newSnap.1 (applyOps [Op.setNamedMetric "x" 5] newSnap.2).heap
      = ServerMetricsRef.val newSnap.1 newSnap.2.heap :=
  have hwf : WF newServerMetricsRecorder := ⟨by decide, by decide, by decide⟩
  ⟨hwf, (C3_snapshot_independence newServerMetricsRecorder newSnap.1 newSnap.2 hwf
    rfl).2.2.2 [Op.setNamedMetric "x" 5]⟩
